import Mathlib

/-!
# Verification of the song-library service (API → service → repository path)

Shallow embedding of the Go sources of `song-library`:

* `internal/repository/postgres/song_repository.go` — the persistence gateway
  (`SongRepository`), embedded as pure functions over an explicit table state
  `DB`.  The SQL executed by each method is given its standard semantics over
  the list of rows (unique primary key `id`, composite unique constraint on
  `(group_name, song_name)`).
* `internal/service/external_api.go` — `SongService`, embedded on top of the
  repository functions; the external metadata client result is passed in as a
  parameter (the HTTP exchange itself is outside the model).
* `internal/api/handler/song_handler.go` — `SongHandler.GetSongByID`,
  embedded over an abstract service function, exactly as the Go handler is
  written over the `SongService` interface.

Go errors are modelled by the inductive `GoErr`: `fmt.Errorf("msg: %w", err)`
becomes `GoErr.wrap "msg" err`, a plain `fmt.Errorf(msg)` becomes
`GoErr.errorf msg`, `sql.ErrNoRows` and the postgres unique-constraint
violation are leaf constructors.  Database infrastructure failures (connection
loss etc.) are injected through an `Option GoErr` fault parameter; `none`
means the database behaves ideally, in which case the only failures are the
deterministic ones (constraint violation, no rows).

Timestamps (`time.Time`, only ever compared) are modelled as `Nat`.
Go `int`/`int64` arithmetic is modelled by unbounded `Int`; two's-complement
wraparound beyond 2^63 is outside the model (the claims under study only
involve values far below that bound).
-/

namespace SongLib

/-- Modelled from the spec: the `internal/model` package is not under `src/`
(only its users are).  Per spec §3 and the schema of §6, a song row carries
the server-assigned integer `id`, the `group`/`song` strings (unique
together), free-form `releaseDate`, the lyrics `text`, a `link`, and the two
storage-managed timestamps. -/
structure Song where
  id : Int
  group : String
  song : String
  releaseDate : String
  text : String
  link : String
  createdAt : Nat
  updatedAt : Nat
deriving DecidableEq

/-- Modelled from the spec: `SongInput` (§6, `POST /songs` body) — the
client-supplied group and title. -/
structure SongInput where
  group : String
  song : String
deriving DecidableEq

/-- Modelled from the spec: `SongDetail` — the external lookup's
`{releaseDate, text, link}` (spec §4.2). -/
structure SongDetail where
  releaseDate : String
  text : String
  link : String
deriving DecidableEq

/-- Modelled from the spec: `SongFilter` (§3) — optional substring filters on
group and title plus 1-based page number and page size (Go `int`). -/
structure SongFilter where
  group : String
  songName : String
  page : Int
  pageSize : Int
deriving DecidableEq

/-- Modelled from the spec: `VersesPagination` (§3) — 1-based page number and
page size over the verse list. -/
structure VersesPagination where
  page : Int
  pageSize : Int
deriving DecidableEq

/-- Go error values, as the repository/service layers construct them.
`wrap m e` is `fmt.Errorf(m + ": %w", e)`; `errorf m` is an unwrapped
`fmt.Errorf(m)`; `sqlErrNoRows` is `sql.ErrNoRows`; `pqUniqueViolation` is
the driver error for a violation of the `(group_name, song_name)` unique
constraint; `driver m` is any other database/driver failure. -/
inductive GoErr where
  | sqlErrNoRows : GoErr
  | pqUniqueViolation : GoErr
  | driver (msg : String) : GoErr
  | errorf (msg : String) : GoErr
  | wrap (msg : String) (inner : GoErr) : GoErr
deriving DecidableEq

/-- Decidable equality of `Except` results, for evaluating the model on
concrete inputs. -/
instance instDecEqExcept {ε α : Type} [DecidableEq ε] [DecidableEq α] :
    DecidableEq (Except ε α) := fun a b =>
  match a, b with
  | .ok x, .ok y =>
    if h : x = y then .isTrue (by rw [h]) else .isFalse (by simp [h])
  | .error x, .error y =>
    if h : x = y then .isTrue (by rw [h]) else .isFalse (by simp [h])
  | .ok _, .error _ => .isFalse (by simp)
  | .error _, .ok _ => .isFalse (by simp)

/-- Go `errors.Is`: unwrap the `%w` chain looking for `target`. -/
def errorsIs (e target : GoErr) : Bool :=
  e == target ||
    match e with
    | .wrap _ inner => errorsIs inner target
    | _ => false

/-- The message of the not-found error `fmt.Errorf("песня с id %d не найдена", id)`
constructed by `UpdateSong`, `DeleteSong`, `GetSongVerses` (repository) and
`GetSongByID` (service). -/
def notFoundText (id : Int) : String :=
  "песня с id " ++ toString id ++ " не найдена"

/-- The `songs` table: its rows plus the next value of the `id` sequence. -/
structure DB where
  rows : List Song
  nextId : Int
deriving DecidableEq

/-- `leadsWith p l` : the list `p` is an initial segment of `l`
(helper for the SQL `ILIKE` semantics). -/
def leadsWith : List Char → List Char → Bool
  | [], _ => true
  | _ :: _, [] => false
  | p :: ps, c :: cs => p == c && leadsWith ps cs

/-- `containsSub hay pat` : `pat` occurs contiguously inside `hay`. -/
def containsSub (hay pat : List Char) : Bool :=
  leadsWith pat hay ||
    match hay with
    | [] => false
    | _ :: t => containsSub t pat

/-- Semantics of the SQL predicate `col ILIKE '%' || pat || '%'` built by
`GetSongs`: case-insensitive substring containment (PostgreSQL lowercases
both sides; `LIKE` metacharacters inside the filter string are outside the
model, as in the spec's reading of the filter as a plain substring). -/
def ilike (s pat : String) : Bool :=
  containsSub (s.toList.map Char.toLower) (pat.toList.map Char.toLower)

/-- Go `strings.Split(text, "\n\n")`, specialised to the blank-line separator
used at `song_repository.go:242`: leftmost-first, non-overlapping splitting;
an empty input yields the one-element list `[[]]`. -/
def splitVerses : List Char → List (List Char)
  | [] => [[]]
  | [c] => [[c]]
  | c1 :: c2 :: rest =>
    if c1 = '\n' ∧ c2 = '\n' then
      [] :: splitVerses rest
    else
      match splitVerses (c2 :: rest) with
      | [] => [[c1]]
      | v :: vs => (c1 :: v) :: vs

/-- `strings.Split` on `String`s. -/
def splitVersesStr (s : String) : List String :=
  (splitVerses s.toList).map (fun l => String.mk l)

namespace SongRepository

/-- `SongRepository.CreateSong` (song_repository.go:46–78).  Sets
`CreatedAt = UpdatedAt = now`, runs the parameterized `INSERT … RETURNING id`,
and wraps any database error as
`fmt.Errorf("ошибка создания песни: %w", err)`.  With no injected fault the
insert fails exactly when a row with the same `(group_name, song_name)`
already exists (the unique constraint); otherwise the new row receives the
sequence value `nextId`. -/
def CreateSong (db : DB) (fault : Option GoErr) (now : Nat)
    (g t rd tx lk : String) : Except GoErr Int × DB :=
  match fault with
  | some e => (.error (.wrap "ошибка создания песни" e), db)
  | none =>
    if db.rows.any (fun s => s.group == g && s.song == t) then
      (.error (.wrap "ошибка создания песни" .pqUniqueViolation), db)
    else
      let s : Song :=
        { id := db.nextId, group := g, song := t, releaseDate := rd,
          text := tx, link := lk, createdAt := now, updatedAt := now }
      (.ok db.nextId, { rows := db.rows ++ [s], nextId := db.nextId + 1 })

/-- The `WHERE` clause built by `GetSongs` (song_repository.go:95–105):
each `ILIKE` condition is appended only when the filter string is non-empty. -/
def matchesFilter (f : SongFilter) (s : Song) : Bool :=
  (f.group == "" || ilike s.group f.group) &&
    (f.songName == "" || ilike s.song f.songName)

/-- The comparison realising `ORDER BY id DESC`: `a` may precede `b` when
`b.id ≤ a.id`. -/
def idDescLe (a b : Song) : Bool := decide (b.id ≤ a.id)

/-- `SongRepository.GetSongs` (song_repository.go:81–132): the query
`SELECT … WHERE 1=1 [AND group_name ILIKE …] [AND song_name ILIKE …]
ORDER BY id DESC LIMIT pageSize OFFSET (page-1)*pageSize`, errors wrapped as
`fmt.Errorf("ошибка получения списка песен: %w", err)`.  An empty result is
`[]`, not an error. -/
def GetSongs (db : DB) (fault : Option GoErr) (f : SongFilter) :
    Except GoErr (List Song) :=
  match fault with
  | some e => .error (.wrap "ошибка получения списка песен" e)
  | none =>
    let sorted := (db.rows.filter (matchesFilter f)).mergeSort idDescLe
    .ok ((sorted.drop ((f.page - 1) * f.pageSize).toNat).take f.pageSize.toNat)

/-- The raw `db.GetContext` of `GetSongByID`: the row with the given primary
key, `sql.ErrNoRows` when none matches, or the injected infrastructure
failure. -/
def rawGet (db : DB) (fault : Option GoErr) (id : Int) : Except GoErr Song :=
  match fault with
  | some e => .error e
  | none =>
    match db.rows.find? (fun s => s.id == id) with
    | some s => .ok s
    | none => .error .sqlErrNoRows

/-- `SongRepository.GetSongByID` (song_repository.go:135–155):
`errors.Is(err, sql.ErrNoRows)` yields the sentinel `(nil, nil)` — here
`.ok none`; any other error is wrapped as
`fmt.Errorf("ошибка получения песни: %w", err)`. -/
def GetSongByID (db : DB) (fault : Option GoErr) (id : Int) :
    Except GoErr (Option Song) :=
  match rawGet db fault id with
  | .ok s => .ok (some s)
  | .error e =>
    if e == .sqlErrNoRows then .ok none
    else .error (.wrap "ошибка получения песни" e)

/-- The effect of `UPDATE songs SET … WHERE id = u.id` on one row. -/
def updateRow (now : Nat) (u : Song) (r : Song) : Song :=
  if r.id == u.id then
    { r with group := u.group, song := u.song, releaseDate := u.releaseDate,
             text := u.text, link := u.link, updatedAt := now }
  else r

/-- `SongRepository.UpdateSong` (song_repository.go:158–196).  The `UPDATE`
refreshes `updated_at` (never `created_at`); an execution error — an injected
fault, or the unique constraint rejecting the new `(group_name, song_name)`
because another row already holds it — is wrapped as
`fmt.Errorf("ошибка обновления песни: %w", err)`; zero affected rows yield
`fmt.Errorf("песня с id %d не найдена", id)`. -/
def UpdateSong (db : DB) (fault : Option GoErr) (now : Nat) (u : Song) :
    Except GoErr Unit × DB :=
  match fault with
  | some e => (.error (.wrap "ошибка обновления песни" e), db)
  | none =>
    let affected := db.rows.countP (fun r => r.id == u.id)
    if affected != 0 &&
        db.rows.any (fun r => !(r.id == u.id) && r.group == u.group && r.song == u.song) then
      (.error (.wrap "ошибка обновления песни" .pqUniqueViolation), db)
    else if affected == 0 then
      (.error (.errorf (notFoundText u.id)), db)
    else
      (.ok (), { db with rows := db.rows.map (updateRow now u) })

/-- `SongRepository.DeleteSong` (song_repository.go:199–224): `DELETE … WHERE
id = $1`; zero affected rows yield `fmt.Errorf("песня с id %d не найдена", id)`;
execution errors are wrapped as `fmt.Errorf("ошибка удаления песни: %w", err)`. -/
def DeleteSong (db : DB) (fault : Option GoErr) (id : Int) :
    Except GoErr Unit × DB :=
  match fault with
  | some e => (.error (.wrap "ошибка удаления песни" e), db)
  | none =>
    let affected := db.rows.countP (fun r => r.id == id)
    if affected == 0 then
      (.error (.errorf (notFoundText id)), db)
    else
      (.ok (), { db with rows := db.rows.filter (fun r => !(r.id == id)) })

/-- The in-memory slice `verses[start:end]` of `GetSongVerses`
(song_repository.go:242–255): `start = (page-1)*pageSize`,
`end = start + pageSize` clipped to the verse count; `start ≥ len(verses)`
short-circuits to the empty slice. -/
def sliceVerses (verses : List String) (page pageSize : Int) : List String :=
  let start := (page - 1) * pageSize
  if start ≥ (verses.length : Int) then
    []
  else
    let en := start + pageSize
    let en := if en > (verses.length : Int) then (verses.length : Int) else en
    (verses.drop start.toNat).take (en - start).toNat

/-- `SongRepository.GetSongVerses` (song_repository.go:227–256): fetches the
song via `GetSongByID` (propagating its error unwrapped), turns the absence
sentinel into `fmt.Errorf("песня с id %d не найдена", id)`, then splits the
text on `"\n\n"` and slices. -/
def GetSongVerses (db : DB) (fault : Option GoErr) (id : Int)
    (p : VersesPagination) : Except GoErr (List String) :=
  match GetSongByID db fault id with
  | .error e => .error e
  | .ok none => .error (.errorf (notFoundText id))
  | .ok (some song) => .ok (sliceVerses (splitVersesStr song.text) p.page p.pageSize)

end SongRepository

namespace SongService

/-- The defaulting of `SongService.GetSongs` (external_api.go:149–154):
`page ≤ 0 → 1`, `pageSize ≤ 0 → 10`. -/
def normFilter (f : SongFilter) : SongFilter :=
  let f1 := if f.page ≤ 0 then { f with page := 1 } else f
  if f1.pageSize ≤ 0 then { f1 with pageSize := 10 } else f1

/-- The defaulting of `SongService.GetSongVerses` (external_api.go:223–228):
`page ≤ 0 → 1`, `pageSize ≤ 0 → 5`. -/
def normPagination (p : VersesPagination) : VersesPagination :=
  let p1 := if p.page ≤ 0 then { p with page := 1 } else p
  if p1.pageSize ≤ 0 then { p1 with pageSize := 5 } else p1

/-- `SongService.CreateSong` (external_api.go:110–137).  The external lookup
result is the parameter `api` (the client call itself is outside the model):
on lookup failure the service returns
`fmt.Errorf("ошибка получения данных песни: %w", err)` without touching
storage; on success it assembles the `model.Song` from the input's
group/title and the lookup's releaseDate/text/link and delegates to the
repository, wrapping a repository error as
`fmt.Errorf("ошибка создания песни: %w", err)`. -/
def CreateSong (api : Except GoErr SongDetail) (db : DB) (fault : Option GoErr)
    (now : Nat) (input : SongInput) : Except GoErr Int × DB :=
  match api with
  | .error e => (.error (.wrap "ошибка получения данных песни" e), db)
  | .ok d =>
    match SongRepository.CreateSong db fault now input.group input.song
        d.releaseDate d.text d.link with
    | (.error e, db') => (.error (.wrap "ошибка создания песни" e), db')
    | (.ok id, db') => (.ok id, db')

/-- `SongService.GetSongs` (external_api.go:140–164): defaulting, then
delegation; repository errors wrapped as
`fmt.Errorf("ошибка получения списка песен: %w", err)`. -/
def GetSongs (db : DB) (fault : Option GoErr) (f : SongFilter) :
    Except GoErr (List Song) :=
  match SongRepository.GetSongs db fault (normFilter f) with
  | .error e => .error (.wrap "ошибка получения списка песен" e)
  | .ok l => .ok l

/-- `SongService.GetSongByID` (external_api.go:167–184): delegation; a
repository error is wrapped as
`fmt.Errorf("ошибка получения песни: %w", err)`; the absence sentinel becomes
`fmt.Errorf("песня с id %d не найдена", id)`. -/
def GetSongByID (db : DB) (fault : Option GoErr) (id : Int) :
    Except GoErr Song :=
  match SongRepository.GetSongByID db fault id with
  | .error e => .error (.wrap "ошибка получения песни" e)
  | .ok none => .error (.errorf (notFoundText id))
  | .ok (some s) => .ok s

/-- `SongService.GetSongVerses` (external_api.go:219–238): defaulting, then
delegation; repository errors wrapped as
`fmt.Errorf("ошибка получения куплетов песни: %w", err)`. -/
def GetSongVerses (db : DB) (fault : Option GoErr) (id : Int)
    (p : VersesPagination) : Except GoErr (List String) :=
  match SongRepository.GetSongVerses db fault id (normPagination p) with
  | .error e => .error (.wrap "ошибка получения куплетов песни" e)
  | .ok v => .ok v

end SongService

/-- Go `strconv.ParseInt(s, 10, 64)` digit loop: `none` unless the (sign-
stripped) text is one or more ASCII decimal digits. -/
def parseDigits (cs : List Char) : Option Nat :=
  if cs = [] then none
  else
    cs.foldl
      (fun acc c =>
        match acc with
        | none => none
        | some n => if c.isDigit then some (n * 10 + (c.toNat - 48)) else none)
      (some 0)

/-- Go `strconv.ParseInt(s, 10, 64)`: optional sign, decimal digits, int64
range check (`-2^63 ≤ v ≤ 2^63 - 1`); `none` models a non-nil error. -/
def parseInt64 (s : String) : Option Int :=
  let cs := s.toList
  let signed : Bool × List Char :=
    match cs with
    | '+' :: rest => (false, rest)
    | '-' :: rest => (true, rest)
    | rest => (false, rest)
  match parseDigits signed.2 with
  | none => none
  | some n =>
    if signed.1 then
      if (n : Int) ≤ 2 ^ 63 then some (-(n : Int)) else none
    else
      if (n : Int) < 2 ^ 63 then some (n : Int) else none

/-- The JSON body of an HTTP response, as far as the handlers under study
construct one. -/
inductive Body where
  | songB (s : Song) : Body
  | songsB (l : List Song) : Body
  | versesB (v : List String) : Body
  | idB (id : Int) : Body
  | msgB (m : String) : Body
  | errB (m : String) : Body
deriving DecidableEq

/-- Status code plus body, the observable outcome of a handler. -/
structure HttpResponse where
  status : Nat
  body : Body
deriving DecidableEq

namespace SongHandler

/-- `SongHandler.GetSongByID` (song_handler.go:90–107), over an abstract
service function exactly as the Go handler is written over the `SongService`
interface: unparsable id → 400; service error (of any kind) → 404; success →
200 with the song. -/
def GetSongByID (idParam : String) (svc : Int → Except GoErr Song) :
    HttpResponse :=
  match parseInt64 idParam with
  | none => { status := 400, body := .errB "Неверный формат ID" }
  | some id =>
    match svc id with
    | .error _ => { status := 404, body := .errB "Песня не найдена" }
    | .ok song => { status := 200, body := .songB song }

end SongHandler

/-- A storage operation together with the `time.Now()` value it observes
(deletes read no clock). -/
inductive Op where
  | createOp (now : Nat) (g t rd tx lk : String) : Op
  | updateOp (now : Nat) (u : Song) : Op
  | deleteOp (id : Int) : Op

/-- One operation against the fault-free database. -/
def execOp (db : DB) : Op → DB
  | .createOp now g t rd tx lk => (SongRepository.CreateSong db none now g t rd tx lk).2
  | .updateOp now u => (SongRepository.UpdateSong db none now u).2
  | .deleteOp id => (SongRepository.DeleteSong db none id).2

/-- Run a sequence of storage operations. -/
def run (db : DB) : List Op → DB
  | [] => db
  | op :: ops => run (execOp db op) ops

/-- The clock values a trace observes, in order. -/
def timesOf (ops : List Op) : List Nat :=
  ops.filterMap fun op =>
    match op with
    | .createOp now _ _ _ _ _ => some now
    | .updateOp now _ => some now
    | .deleteOp _ => none

/-- The initial, empty table. -/
def emptyDB : DB := { rows := [], nextId := 1 }

/-- The wrapping context a repository/service layer attached to an error:
the `msg` of the outermost `fmt.Errorf(msg + ": %w", …)`, `none` for leaf
errors.  This is the only marking the layers under study ever put on an
error they translate. -/
def wrapMsgOf : GoErr → Option String
  | .wrap m _ => some m
  | _ => none

/-- The timestamp invariant together with the clock bound used to push it
through a trace: every stored row has `createdAt ≤ updatedAt`, and no
timestamp exceeds `t`. -/
def InvDB (db : DB) (t : Nat) : Prop :=
  ∀ r ∈ db.rows, r.createdAt ≤ r.updatedAt ∧ r.updatedAt ≤ t

/-- Fixture for C1: a stored song whose text has three blank-line separated
verses. -/
def songC1 : Song :=
  { id := 1, group := "g", song := "t", releaseDate := "rd",
    text := "A\n\nB\n\nC", link := "lk", createdAt := 0, updatedAt := 0 }

/-- Fixture for C1. -/
def dbC1 : DB := { rows := [songC1], nextId := 2 }

/-- Fixture for C10: a stored song whose text is the empty string. -/
def songC10 : Song :=
  { id := 1, group := "g", song := "t", releaseDate := "rd",
    text := "", link := "lk", createdAt := 0, updatedAt := 0 }

/-- Fixture for C10. -/
def dbC10 : DB := { rows := [songC10], nextId := 2 }

/-- Fixture for C2: the stored song. -/
def songC2 : Song :=
  { id := 1, group := "g", song := "t", releaseDate := "rd",
    text := "tx", link := "lk", createdAt := 0, updatedAt := 0 }

/-- Fixture for C2: a table in which song 1 exists, so a failure injected at
the database layer is an infrastructure failure, not absence. -/
def dbC2 : DB := { rows := [songC2], nextId := 2 }

/-- Fixture for C3: a table already holding the pair (Muse, Uprising). -/
def dbC3 : DB :=
  { rows := [{ id := 1, group := "Muse", song := "Uprising", releaseDate := "2009",
               text := "tx", link := "lk", createdAt := 0, updatedAt := 0 }],
    nextId := 2 }

/-- Fixture for C4. -/
def dbC4 : DB := { rows := [], nextId := 1 }

/-- Fixture for C5. -/
def dbC5 : DB := { rows := [], nextId := 1 }

/-- Fixture for C6: song 1 exists, song 2 does not. -/
def songC6 : Song :=
  { id := 1, group := "g", song := "t", releaseDate := "rd",
    text := "tx", link := "lk", createdAt := 0, updatedAt := 0 }

/-- Fixture for C6. -/
def dbC6 : DB := { rows := [songC6], nextId := 2 }

/-- Fixture for C7: only song 1 exists. -/
def dbC7 : DB :=
  { rows := [{ id := 1, group := "g", song := "t", releaseDate := "rd",
               text := "tx", link := "lk", createdAt := 0, updatedAt := 0 }],
    nextId := 2 }

/-- Fixture for C8: a stored song whose group is "The Beatles". -/
def songC8 : Song :=
  { id := 1, group := "The Beatles", song := "Help", releaseDate := "1965",
    text := "tx", link := "lk", createdAt := 0, updatedAt := 0 }

/-- Fixture for C8. -/
def dbC8 : DB := { rows := [songC8], nextId := 2 }

/-- Fixture for C8: the filter "beatles" with default pagination. -/
def fC8 : SongFilter := { group := "beatles", songName := "", page := 1, pageSize := 10 }

/-- Fixture for C9: the song record sent to the update operation. -/
def updC9 : Song :=
  { id := 1, group := "g2", song := "t2", releaseDate := "rd2",
    text := "tx2", link := "lk2", createdAt := 0, updatedAt := 0 }

/-- Fixture for C9: create at time 5, then update at time 7. -/
def opsC9 : List Op :=
  [Op.createOp 5 "g" "t" "rd" "tx" "lk", Op.updateOp 7 updC9]

/-- Fixture for C4. -/
def inputC4 : SongInput := { group := "g", song := "t" }

/-- Fixture for C4: the external lookup's answer. -/
def detailC4 : SongDetail := { releaseDate := "2020", text := "A", link := "l" }

/-- Fixture for C4: the table after the successful creation. -/
def dbC4' : DB :=
  { rows := [{ id := 1, group := "g", song := "t", releaseDate := "2020",
               text := "A", link := "l", createdAt := 4, updatedAt := 4 }],
    nextId := 2 }

/-- Fixture for C7: an update record whose id (2) matches no stored row. -/
def updNoC7 : Song :=
  { id := 2, group := "g2", song := "t2", releaseDate := "rd2",
    text := "tx2", link := "lk2", createdAt := 0, updatedAt := 0 }

/-- Fixture for C9: the row left after running `opsC9` from the empty table. -/
def rowC9 : Song :=
  { id := 1, group := "g2", song := "t2", releaseDate := "rd2",
    text := "tx2", link := "lk2", createdAt := 5, updatedAt := 7 }

/-- Fixture for C9: the row created by the first operation of `opsC9`. -/
def rowC9create : Song :=
  { id := 1, group := "g", song := "t", releaseDate := "rd",
    text := "tx", link := "lk", createdAt := 5, updatedAt := 5 }

/-- Fixture for C9: the table after the create. -/
def dbC9a : DB := { rows := [rowC9create], nextId := 2 }

/-- Fixture for C9: the table after the update. -/
def dbC9b : DB := { rows := [rowC9], nextId := 2 }

/-- Splitting never yields the empty list: every branch of `splitVerses`
returns a cons (Go `strings.Split` with a non-empty separator always returns
at least one element). -/
theorem splitVerses_ne_nil (l : List Char) : splitVerses l ≠ [] := by
  match l with
  | [] => simp [splitVerses]
  | [c] => simp [splitVerses]
  | c1 :: c2 :: rest =>
    simp only [splitVerses]
    split
    · simp
    · split <;> simp

/-- String-level version of `splitVerses_ne_nil`. -/
theorem splitVersesStr_ne_nil (s : String) : splitVersesStr s ≠ [] := by
  have h := splitVerses_ne_nil s.toList
  simp only [splitVersesStr, ne_eq, List.map_eq_nil_iff]
  exact h

/-- The in-memory slice of `GetSongVerses`, on a valid pagination, is
exactly `drop ((page-1)*pageSize)` followed by `take pageSize`: the
`end`-clipping in the code changes nothing once `take` saturates, and the
`start ≥ len` early return coincides with the empty drop. -/
theorem sliceVerses_eq (vs : List String) (page pageSize : Int)
    (hp : 1 ≤ page) (hq : 1 ≤ pageSize) :
    SongRepository.sliceVerses vs page pageSize =
      (vs.drop ((page - 1) * pageSize).toNat).take pageSize.toNat := by
  have hs0 : 0 ≤ (page - 1) * pageSize := mul_nonneg (by omega) (by omega)
  simp only [SongRepository.sliceVerses]
  generalize hst : (page - 1) * pageSize = st
  rw [hst] at hs0
  by_cases h1 : st ≥ (vs.length : Int)
  · rw [if_pos h1, List.drop_eq_nil_of_le (show vs.length ≤ st.toNat by omega),
      List.take_nil]
  · rw [if_neg h1]
    by_cases h2 : st + pageSize > (vs.length : Int)
    · rw [if_pos h2]
      have hd : (vs.drop st.toNat).length = vs.length - st.toNat :=
        List.length_drop _ _
      rw [List.take_of_length_le (by omega), List.take_of_length_le (by omega)]
    · rw [if_neg h2]
      congr 1
      omega

/-- On a fault-free database holding the requested song, `GetSongVerses`
reduces to splitting the text and slicing. -/
theorem getSongVerses_found (db : DB) (id : Int) (s : Song)
    (hs : db.rows.find? (fun r => r.id == id) = some s) (p : VersesPagination) :
    SongRepository.GetSongVerses db none id p =
      .ok (SongRepository.sliceVerses (splitVersesStr s.text) p.page p.pageSize) := by
  simp [SongRepository.GetSongVerses, SongRepository.GetSongByID,
    SongRepository.rawGet, hs]

/-- Claim C1: for every stored song and pagination with `page ≥ 1` and
`pageSize ≥ 1`, `GetSongVerses` splits the text on the blank-line separator
and returns exactly the sub-range `[(page-1)*pageSize, page*pageSize)` of the
verse list clipped to the verse count; a start index at or beyond the verse
count yields the empty list with no error. -/
theorem C1_getSongVerses_paging (db : DB) (id : Int) (s : Song)
    (page pageSize : Int)
    (hs : db.rows.find? (fun r => r.id == id) = some s)
    (hp : 1 ≤ page) (hq : 1 ≤ pageSize) :
    SongRepository.GetSongVerses db none id ⟨page, pageSize⟩ =
      .ok (((splitVersesStr s.text).drop ((page - 1) * pageSize).toNat).take
        pageSize.toNat) ∧
    ((splitVersesStr s.text).length ≤ ((page - 1) * pageSize).toNat →
      SongRepository.GetSongVerses db none id ⟨page, pageSize⟩ = .ok []) := by
  have heq := getSongVerses_found db id s hs ⟨page, pageSize⟩
  rw [sliceVerses_eq _ _ _ hp hq] at heq
  refine ⟨heq, fun hlen => ?_⟩
  rw [heq, List.drop_eq_nil_of_le hlen, List.take_nil]

/-- Witness for C1 at the spec's own example: text `"A\n\nB\n\nC"`,
pageSize 1, pages 1, 2 and 4. -/
theorem C1_witness :
    SongRepository.GetSongVerses dbC1 none 1 ⟨1, 1⟩ = .ok ["A"] ∧
    SongRepository.GetSongVerses dbC1 none 1 ⟨2, 1⟩ = .ok ["B"] ∧
    SongRepository.GetSongVerses dbC1 none 1 ⟨4, 1⟩ = .ok [] := by
  have h1 := (C1_getSongVerses_paging dbC1 1 songC1 1 1 (by decide) (by decide)
    (by decide)).1
  have h2 := (C1_getSongVerses_paging dbC1 1 songC1 2 1 (by decide) (by decide)
    (by decide)).1
  have h4 := (C1_getSongVerses_paging dbC1 1 songC1 4 1 (by decide) (by decide)
    (by decide)).2 (by decide)
  exact ⟨h1.trans (by decide), h2.trans (by decide), h4⟩

/-- Claim C10: for every stored song and pagination with `page ≥ 1` and
`pageSize ≥ 1`, `GetSongVerses` returns at most `pageSize` verses; for
`page = 1` the result is never empty, because splitting any text on the
blank-line separator yields at least one element — in particular a song whose
text is the empty string yields exactly one verse, the empty string. -/
theorem C10_verses_bounds (db : DB) (id : Int) (s : Song) (page pageSize : Int)
    (hs : db.rows.find? (fun r => r.id == id) = some s)
    (hp : 1 ≤ page) (hq : 1 ≤ pageSize) :
    ∀ vs, SongRepository.GetSongVerses db none id ⟨page, pageSize⟩ = .ok vs →
      vs.length ≤ pageSize.toNat ∧
      (page = 1 → vs ≠ []) ∧
      (page = 1 → s.text = "" → vs = [""]) := by
  have heq := getSongVerses_found db id s hs ⟨page, pageSize⟩
  rw [sliceVerses_eq _ _ _ hp hq] at heq
  intro vs hvs
  rw [heq] at hvs
  have hv : vs = ((splitVersesStr s.text).drop ((page - 1) * pageSize).toNat).take
      pageSize.toNat := by
    exact (Except.ok.injEq _ _ ▸ hvs).symm
  subst hv
  have hq0 : pageSize.toNat ≠ 0 := by omega
  refine ⟨?_, fun hpage => ?_, fun hpage htext => ?_⟩
  · rw [List.length_take]
    exact inf_le_left
  · subst hpage
    have hz : ((1 - 1 : Int) * pageSize).toNat = 0 := by
      norm_num
    rw [hz, List.drop_zero, Ne, List.take_eq_nil_iff]
    push_neg
    exact ⟨hq0, splitVersesStr_ne_nil s.text⟩
  · subst hpage
    rw [htext]
    have hz : ((1 - 1 : Int) * pageSize).toNat = 0 := by
      norm_num
    rw [hz, List.drop_zero]
    have hbase : splitVersesStr "" = [""] := rfl
    rw [hbase]
    match hN : pageSize.toNat with
    | 0 => exact absurd hN hq0
    | Nat.succ m => simp

/-- Witness for C10 on a stored song with empty text, page 1, pageSize 3. -/
theorem C10_witness :
    ([""] : List String).length ≤ (3 : Int).toNat ∧
    ((1 : Int) = 1 → ([""] : List String) ≠ []) ∧
    ((1 : Int) = 1 → songC10.text = "" → ([""] : List String) = [""]) :=
  C10_verses_bounds dbC10 1 songC10 1 3 (by decide) (by decide) (by decide)
    [""] (by decide)

/-- Defaulting the page of a `SongFilter` already at or below zero is the
same as presetting it to 1. -/
theorem normFilter_page_le (f : SongFilter) (h : f.page ≤ 0) :
    SongService.normFilter f = SongService.normFilter { f with page := 1 } := by
  simp [SongService.normFilter, h]

/-- Defaulting the pageSize of a `SongFilter` already at or below zero is the
same as presetting it to 10. -/
theorem normFilter_pageSize_le (f : SongFilter) (h : f.pageSize ≤ 0) :
    SongService.normFilter f = SongService.normFilter { f with pageSize := 10 } := by
  by_cases hp : f.page ≤ 0 <;> simp [SongService.normFilter, h, hp]

/-- Defaulting the page of a `VersesPagination` already at or below zero is
the same as presetting it to 1. -/
theorem normPagination_page_le (p : VersesPagination) (h : p.page ≤ 0) :
    SongService.normPagination p =
      SongService.normPagination { p with page := 1 } := by
  simp [SongService.normPagination, h]

/-- Defaulting the pageSize of a `VersesPagination` already at or below zero
is the same as presetting it to 5. -/
theorem normPagination_pageSize_le (p : VersesPagination) (h : p.pageSize ≤ 0) :
    SongService.normPagination p =
      SongService.normPagination { p with pageSize := 5 } := by
  by_cases hp : p.page ≤ 0 <;> simp [SongService.normPagination, h, hp]

/-- Claim C5: the service's `GetSongs` with `page ≤ 0` behaves identically to
the same call with `page = 1`, and with `pageSize ≤ 0` identically to
`pageSize = 10`; likewise `GetSongVerses` with `page ≤ 0` behaves identically
to `page = 1` and with `pageSize ≤ 0` identically to `pageSize = 5`. -/
theorem C5_service_defaults :
    (∀ (db : DB) (fault : Option GoErr) (f : SongFilter), f.page ≤ 0 →
      SongService.GetSongs db fault f =
        SongService.GetSongs db fault { f with page := 1 }) ∧
    (∀ (db : DB) (fault : Option GoErr) (f : SongFilter), f.pageSize ≤ 0 →
      SongService.GetSongs db fault f =
        SongService.GetSongs db fault { f with pageSize := 10 }) ∧
    (∀ (db : DB) (fault : Option GoErr) (id : Int) (p : VersesPagination),
      p.page ≤ 0 →
      SongService.GetSongVerses db fault id p =
        SongService.GetSongVerses db fault id { p with page := 1 }) ∧
    (∀ (db : DB) (fault : Option GoErr) (id : Int) (p : VersesPagination),
      p.pageSize ≤ 0 →
      SongService.GetSongVerses db fault id p =
        SongService.GetSongVerses db fault id { p with pageSize := 5 }) := by
  refine ⟨fun db fault f h => ?_, fun db fault f h => ?_,
    fun db fault id p h => ?_, fun db fault id p h => ?_⟩
  · unfold SongService.GetSongs
    rw [normFilter_page_le f h]
  · unfold SongService.GetSongs
    rw [normFilter_pageSize_le f h]
  · unfold SongService.GetSongVerses
    rw [normPagination_page_le p h]
  · unfold SongService.GetSongVerses
    rw [normPagination_pageSize_le p h]

/-- Witness for C5 at page 0 / pageSize 0 / negative page. -/
theorem C5_witness :
    SongService.GetSongs dbC5 none { group := "", songName := "", page := 0, pageSize := 3 } =
      SongService.GetSongs dbC5 none { group := "", songName := "", page := 1, pageSize := 3 } ∧
    SongService.GetSongs dbC5 none { group := "", songName := "", page := 2, pageSize := -1 } =
      SongService.GetSongs dbC5 none { group := "", songName := "", page := 2, pageSize := 10 } ∧
    SongService.GetSongVerses dbC5 none 1 { page := -2, pageSize := 4 } =
      SongService.GetSongVerses dbC5 none 1 { page := 1, pageSize := 4 } ∧
    SongService.GetSongVerses dbC5 none 1 { page := 3, pageSize := 0 } =
      SongService.GetSongVerses dbC5 none 1 { page := 3, pageSize := 5 } :=
  ⟨C5_service_defaults.1 dbC5 none ⟨"", "", 0, 3⟩ (by decide),
   C5_service_defaults.2.1 dbC5 none ⟨"", "", 2, -1⟩ (by decide),
   C5_service_defaults.2.2.1 dbC5 none 1 ⟨-2, 4⟩ (by decide),
   C5_service_defaults.2.2.2 dbC5 none 1 ⟨3, 0⟩ (by decide)⟩

/-- Claim C6: the gateway's `GetByID` reports absence as the sentinel
`.ok none`, never an error; the service's `GetSongByID` is what converts that
sentinel into the explicit not-found error. -/
theorem C6_absence_sentinel (db : DB) (id : Int) :
    (db.rows.find? (fun r => r.id == id) = none →
      SongRepository.GetSongByID db none id = .ok none ∧
      SongService.GetSongByID db none id = .error (.errorf (notFoundText id))) ∧
    (∀ s, db.rows.find? (fun r => r.id == id) = some s →
      SongRepository.GetSongByID db none id = .ok (some s) ∧
      SongService.GetSongByID db none id = .ok s) := by
  constructor
  · intro h
    have hrepo : SongRepository.GetSongByID db none id = .ok none := by
      simp [SongRepository.GetSongByID, SongRepository.rawGet, h]
    exact ⟨hrepo, by simp [SongService.GetSongByID, hrepo]⟩
  · intro s h
    have hrepo : SongRepository.GetSongByID db none id = .ok (some s) := by
      simp [SongRepository.GetSongByID, SongRepository.rawGet, h]
    exact ⟨hrepo, by simp [SongService.GetSongByID, hrepo]⟩

/-- Witness for C6: song 2 is absent (sentinel at the gateway, error at the
service); song 1 is present. -/
theorem C6_witness :
    (SongRepository.GetSongByID dbC6 none 2 = .ok none ∧
      SongService.GetSongByID dbC6 none 2 = .error (.errorf (notFoundText 2))) ∧
    (SongRepository.GetSongByID dbC6 none 1 = .ok (some songC6) ∧
      SongService.GetSongByID dbC6 none 1 = .ok songC6) :=
  ⟨(C6_absence_sentinel dbC6 2).1 (by decide),
   (C6_absence_sentinel dbC6 1).2 songC6 (by decide)⟩

/-- Claim C7: `Update` on an id with no matching row fails with the
not-found error (zero rows affected) and leaves the table unchanged;
likewise `Delete`. -/
theorem C7_update_delete_not_found (db : DB) (now : Nat) (u : Song) (id : Int)
    (hu : ∀ r ∈ db.rows, r.id ≠ u.id) (hd : ∀ r ∈ db.rows, r.id ≠ id) :
    SongRepository.UpdateSong db none now u =
      (.error (.errorf (notFoundText u.id)), db) ∧
    SongRepository.DeleteSong db none id =
      (.error (.errorf (notFoundText id)), db) := by
  have hcu : db.rows.countP (fun r => r.id == u.id) = 0 :=
    List.countP_eq_zero.mpr (fun r hr => by simpa using hu r hr)
  have hcd : db.rows.countP (fun r => r.id == id) = 0 :=
    List.countP_eq_zero.mpr (fun r hr => by simpa using hd r hr)
  constructor
  · simp [SongRepository.UpdateSong, hcu]
  · simp [SongRepository.DeleteSong, hcd]

/-- Witness for C7: updating and deleting id 2 in a table holding only id 1. -/
theorem C7_witness :
    SongRepository.UpdateSong dbC7 none 9 updNoC7 =
      (.error (.errorf (notFoundText 2)), dbC7) ∧
    SongRepository.DeleteSong dbC7 none 2 =
      (.error (.errorf (notFoundText 2)), dbC7) :=
  C7_update_delete_not_found dbC7 9 updNoC7 2 (by decide) (by decide)

/-- `errors.Is` finds an error in itself. -/
theorem errorsIs_self (e : GoErr) : errorsIs e e = true := by
  unfold errorsIs
  simp

/-- `errors.Is` sees through one `fmt.Errorf("…: %w", e)` wrap. -/
theorem errorsIs_wrap (m : String) (e : GoErr) : errorsIs (.wrap m e) e = true := by
  unfold errorsIs
  simp [errorsIs_self]

/-- Claim C4: if the external metadata lookup fails, the service's
`CreateSong` surfaces the upstream failure (wrapped with the operation
context, the upstream error preserved in the `%w` chain) and the stored
state is untouched; if the lookup succeeds, it assembles the song from the
input's group/title and the lookup's releaseDate/text/link, delegates to the
persistence `Create`, and propagates its result, a create error again kept
intact inside the wrap. -/
theorem C4_service_create (db : DB) (fault : Option GoErr) (now : Nat)
    (input : SongInput) :
    (∀ e : GoErr,
      SongService.CreateSong (.error e) db fault now input =
        (.error (.wrap "ошибка получения данных песни" e), db) ∧
      errorsIs (.wrap "ошибка получения данных песни" e) e = true) ∧
    (∀ d : SongDetail,
      (∀ (id : Int) (db' : DB),
        SongRepository.CreateSong db fault now input.group input.song
          d.releaseDate d.text d.link = (.ok id, db') →
        SongService.CreateSong (.ok d) db fault now input = (.ok id, db')) ∧
      (∀ (e : GoErr) (db' : DB),
        SongRepository.CreateSong db fault now input.group input.song
          d.releaseDate d.text d.link = (.error e, db') →
        SongService.CreateSong (.ok d) db fault now input =
          (.error (.wrap "ошибка создания песни" e), db') ∧
        errorsIs (.wrap "ошибка создания песни" e) e = true)) := by
  refine ⟨fun e => ⟨rfl, errorsIs_wrap _ _⟩,
    fun d => ⟨fun id db' h => ?_, fun e db' h => ?_⟩⟩
  · simp [SongService.CreateSong, h]
  · exact ⟨by simp [SongService.CreateSong, h], errorsIs_wrap _ _⟩

/-- Witness for C4: a failed lookup leaves the empty table untouched; a
successful lookup stores the assembled song. -/
theorem C4_witness :
    (SongService.CreateSong (.error (GoErr.driver "timeout")) dbC4 none 4 inputC4 =
      (.error (.wrap "ошибка получения данных песни" (GoErr.driver "timeout")), dbC4) ∧
      errorsIs (.wrap "ошибка получения данных песни" (GoErr.driver "timeout"))
        (GoErr.driver "timeout") = true) ∧
    SongService.CreateSong (.ok detailC4) dbC4 none 4 inputC4 = (.ok 1, dbC4') :=
  ⟨(C4_service_create dbC4 none 4 inputC4).1 (GoErr.driver "timeout"),
   ((C4_service_create dbC4 none 4 inputC4).2 detailC4).1 1 dbC4' (by decide)⟩

/-- Counterexample to C2 as stated: a database failure that is not absence —
song 1 exists in `dbC2`, the injected fault is a lost connection — reaches the
Get-by-id handler as a generic service error, and the handler answers 404,
not the claimed 500.  The error's unwrap chain does not contain the not-found
error, so the failure really is "a storage failure that is not absence". -/
theorem C2_counterexample :
    SongService.GetSongByID dbC2 (some (GoErr.driver "connection refused")) 1 =
      .error (.wrap "ошибка получения песни"
        (.wrap "ошибка получения песни" (GoErr.driver "connection refused"))) ∧
    errorsIs
      (.wrap "ошибка получения песни"
        (.wrap "ошибка получения песни" (GoErr.driver "connection refused")))
      (.errorf (notFoundText 1)) = false ∧
    SongHandler.GetSongByID "1"
      (SongService.GetSongByID dbC2 (some (GoErr.driver "connection refused"))) =
      { status := 404, body := .errB "Песня не найдена" } ∧
    (404 : Nat) ≠ 500 := by
  refine ⟨by decide, by decide, by decide, by decide⟩

/-- Claim C2 as amended: the Get-by-id handler returns 200 with the song on
success and 400 when the id path segment is not a valid integer, but maps
EVERY service failure — absence and storage failures alike — to 404; it never
returns 500. -/
theorem C2_handler_statuses (idParam : String) (svc : Int → Except GoErr Song) :
    (parseInt64 idParam = none →
      SongHandler.GetSongByID idParam svc =
        { status := 400, body := .errB "Неверный формат ID" }) ∧
    (∀ id : Int, parseInt64 idParam = some id →
      (∀ s, svc id = .ok s →
        SongHandler.GetSongByID idParam svc =
          { status := 200, body := .songB s }) ∧
      (∀ e, svc id = .error e →
        SongHandler.GetSongByID idParam svc =
          { status := 404, body := .errB "Песня не найдена" })) ∧
    (SongHandler.GetSongByID idParam svc).status ≠ 500 := by
  refine ⟨fun h => ?_, fun id h => ⟨fun s hs => ?_, fun e he => ?_⟩, ?_⟩
  · simp [SongHandler.GetSongByID, h]
  · simp [SongHandler.GetSongByID, h, hs]
  · simp [SongHandler.GetSongByID, h, he]
  · rcases hparse : parseInt64 idParam with _ | id
    · simp [SongHandler.GetSongByID, hparse]
    · rcases hsvc : svc id with e | s
      · simp [SongHandler.GetSongByID, hparse, hsvc]
      · simp [SongHandler.GetSongByID, hparse, hsvc]

/-- Witness for the amended C2: a malformed id, a present song, an absent
song, against the real service over `dbC2`. -/
theorem C2_witness :
    SongHandler.GetSongByID "abc" (SongService.GetSongByID dbC2 none) =
      { status := 400, body := .errB "Неверный формат ID" } ∧
    SongHandler.GetSongByID "1" (SongService.GetSongByID dbC2 none) =
      { status := 200, body := .songB songC2 } ∧
    SongHandler.GetSongByID "2" (SongService.GetSongByID dbC2 none) =
      { status := 404, body := .errB "Песня не найдена" } :=
  ⟨(C2_handler_statuses "abc" (SongService.GetSongByID dbC2 none)).1 (by decide),
   ((C2_handler_statuses "1" (SongService.GetSongByID dbC2 none)).2.1 1
     (by decide)).1 songC2 (by decide),
   ((C2_handler_statuses "2" (SongService.GetSongByID dbC2 none)).2.1 2
     (by decide)).2 (.errorf (notFoundText 2)) (by decide)⟩

/-- Inversion of a successful insert: no duplicate existed, the new id is the
sequence value, and the new row carries `createdAt = updatedAt = now`. -/
theorem createSong_ok (db : DB) (now : Nat) (g t rd tx lk : String)
    (id : Int) (db' : DB)
    (h : SongRepository.CreateSong db none now g t rd tx lk = (.ok id, db')) :
    id = db.nextId ∧
    db' = { rows := db.rows ++
              [{ id := db.nextId, group := g, song := t, releaseDate := rd,
                 text := tx, link := lk, createdAt := now, updatedAt := now }],
            nextId := db.nextId + 1 } := by
  by_cases hdup : db.rows.any (fun s => s.group == g && s.song == t) = true
  · simp [SongRepository.CreateSong, hdup] at h
  · simp [SongRepository.CreateSong, hdup] at h
    exact ⟨h.1.symm, h.2.symm⟩

/-- Counterexample to C3 as stated: the repository gives the unique-constraint
violation and an arbitrary infrastructure failure the IDENTICAL treatment —
the same `fmt.Errorf("ошибка создания песни: %w", …)` wrap with the same
message — merely passing the raw driver error through inside it.  No
`ConflictError` class distinguished from a `StorageError` class is ever
constructed (`wrapMsgOf`, the only marking the repository attaches, agrees on
the two). -/
theorem C3_counterexample :
    (SongRepository.CreateSong dbC3 none 3 "Muse" "Uprising" "2009" "txt" "lnk").1 =
      .error (.wrap "ошибка создания песни" .pqUniqueViolation) ∧
    (SongRepository.CreateSong dbC3 (some (GoErr.driver "connection refused")) 3
        "Muse" "Uprising" "2009" "txt" "lnk").1 =
      .error (.wrap "ошибка создания песни" (GoErr.driver "connection refused")) ∧
    wrapMsgOf (GoErr.wrap "ошибка создания песни" .pqUniqueViolation) =
      wrapMsgOf (GoErr.wrap "ошибка создания песни"
        (GoErr.driver "connection refused")) := by
  refine ⟨by decide, by decide, by decide⟩

/-- Claim C3 as amended: creating a `(group, title)` pair that already exists
fails — in particular on the second of two identical creates — with the
unique-constraint violation wrapped in the generic creation message, leaving
the table unchanged; and every other database failure receives the very same
generic wrapping, the repository defining no distinguished ConflictError /
StorageError classes. -/
theorem C3_duplicate_create (db : DB) (now now' : Nat)
    (g t rd tx lk rd' tx' lk' : String) :
    (db.rows.any (fun s => s.group == g && s.song == t) = true →
      SongRepository.CreateSong db none now g t rd tx lk =
        (.error (.wrap "ошибка создания песни" .pqUniqueViolation), db)) ∧
    (∀ (id : Int) (db' : DB),
      SongRepository.CreateSong db none now g t rd tx lk = (.ok id, db') →
      SongRepository.CreateSong db' none now' g t rd' tx' lk' =
        (.error (.wrap "ошибка создания песни" .pqUniqueViolation), db')) ∧
    (∀ e : GoErr,
      SongRepository.CreateSong db (some e) now g t rd tx lk =
        (.error (.wrap "ошибка создания песни" e), db)) := by
  refine ⟨fun hdup => ?_, fun id db' h => ?_, fun e => rfl⟩
  · simp [SongRepository.CreateSong, hdup]
  · obtain ⟨hid, hdb⟩ := createSong_ok db now g t rd tx lk id db' h
    subst hdb
    have hdup2 : ((db.rows ++
        [{ id := db.nextId, group := g, song := t, releaseDate := rd,
           text := tx, link := lk, createdAt := now, updatedAt := now }]
        : List Song).any (fun s => s.group == g && s.song == t)) = true := by
      simp
    simp [SongRepository.CreateSong, hdup2]

/-- Witness for the amended C3: create (Muse, Uprising) twice from the empty
table; the second attempt fails with the wrapped unique violation, and an
injected connection failure gets the identical wrap. -/
theorem C3_witness :
    SongRepository.CreateSong dbC3 none 7 "Muse" "Uprising" "2010" "t2" "l2" =
      (.error (.wrap "ошибка создания песни" .pqUniqueViolation), dbC3) ∧
    SongRepository.CreateSong dbC3 (some (GoErr.driver "disk full")) 7
        "Muse" "Uprising" "2010" "t2" "l2" =
      (.error (.wrap "ошибка создания песни" (GoErr.driver "disk full")), dbC3) :=
  ⟨(C3_duplicate_create dbC3 7 0 "Muse" "Uprising" "2010" "t2" "l2" "" "" "").1
     (by decide),
   (C3_duplicate_create dbC3 7 0 "Muse" "Uprising" "2010" "t2" "l2" "" "" "").2.2
     (GoErr.driver "disk full")⟩

/-- `idDescLe` is transitive. -/
theorem idDescLe_trans (a b c : Song)
    (hab : SongRepository.idDescLe a b = true)
    (hbc : SongRepository.idDescLe b c = true) :
    SongRepository.idDescLe a c = true := by
  simp only [SongRepository.idDescLe, decide_eq_true_eq] at *
  omega

/-- `idDescLe` is total. -/
theorem idDescLe_total (a b : Song) :
    (SongRepository.idDescLe a b || SongRepository.idDescLe b a) = true := by
  simp only [SongRepository.idDescLe, Bool.or_eq_true, decide_eq_true_eq]
  omega

/-- Claim C8: for every filter with `page ≥ 1` and `pageSize ≥ 1`, `List`
returns (without error) exactly the `(page-1)*pageSize`-offset,
`pageSize`-limited slice of the rows matching the filter ordered by id
descending; consequently at most `pageSize` rows, ordered by id descending,
each a stored row matching the case-insensitive substring filters; an empty
match set gives the empty list rather than an error; empty filter strings
impose no restriction; and the filter "beatles" matches the stored group
"The Beatles". -/
theorem C8_getSongs_query (db : DB) (f : SongFilter)
    (hp : 1 ≤ f.page) (hq : 1 ≤ f.pageSize) :
    SongRepository.GetSongs db none f =
      .ok ((((db.rows.filter (SongRepository.matchesFilter f)).mergeSort
        SongRepository.idDescLe).drop
          ((f.page - 1) * f.pageSize).toNat).take f.pageSize.toNat) ∧
    (∀ l, SongRepository.GetSongs db none f = .ok l →
      l.length ≤ f.pageSize.toNat ∧
      List.Pairwise (fun a b : Song => b.id ≤ a.id) l ∧
      (∀ s ∈ l, s ∈ db.rows ∧ SongRepository.matchesFilter f s = true) ∧
      ((∀ s ∈ db.rows, SongRepository.matchesFilter f s = false) → l = [])) ∧
    (f.group = "" → f.songName = "" →
      ∀ s : Song, SongRepository.matchesFilter f s = true) ∧
    ilike "The Beatles" "beatles" = true := by
  have heq : SongRepository.GetSongs db none f =
      .ok ((((db.rows.filter (SongRepository.matchesFilter f)).mergeSort
        SongRepository.idDescLe).drop
          ((f.page - 1) * f.pageSize).toNat).take f.pageSize.toNat) := rfl
  refine ⟨heq, fun l hl => ?_, fun hg hs s => ?_, by decide⟩
  · rw [heq] at hl
    have hl' : l = (((db.rows.filter (SongRepository.matchesFilter f)).mergeSort
        SongRepository.idDescLe).drop
          ((f.page - 1) * f.pageSize).toNat).take f.pageSize.toNat :=
      (Except.ok.injEq _ _ ▸ hl).symm
    subst hl'
    have hsub : ((((db.rows.filter (SongRepository.matchesFilter f)).mergeSort
        SongRepository.idDescLe).drop
          ((f.page - 1) * f.pageSize).toNat).take f.pageSize.toNat).Sublist
        ((db.rows.filter (SongRepository.matchesFilter f)).mergeSort
          SongRepository.idDescLe) :=
      (List.take_sublist _ _).trans (List.drop_sublist _ _)
    refine ⟨?_, ?_, ?_, ?_⟩
    · rw [List.length_take]
      exact inf_le_left
    · have hsorted := List.sorted_mergeSort idDescLe_trans idDescLe_total
        (db.rows.filter (SongRepository.matchesFilter f))
      exact (List.Pairwise.sublist hsub hsorted).imp
        (fun h => of_decide_eq_true h)
    · intro s hs'
      have hmem := List.Sublist.mem hs' hsub
      have hfil : s ∈ db.rows.filter (SongRepository.matchesFilter f) :=
        ((List.mergeSort_perm _ _).mem_iff).mp hmem
      exact ⟨(List.mem_filter.mp hfil).1, (List.mem_filter.mp hfil).2⟩
    · intro hnone
      have hfilter : db.rows.filter (SongRepository.matchesFilter f) = [] :=
        List.filter_eq_nil_iff.mpr (fun a ha => by simp [hnone a ha])
      rw [hfilter, List.mergeSort_nil]
      simp
  · simp [SongRepository.matchesFilter, hg, hs]

/-- Witness for C8: the filter "beatles" against a table holding a song of
"The Beatles" returns exactly that song. -/
theorem C8_witness :
    SongRepository.GetSongs dbC8 none fC8 = .ok [songC8] := by
  have h := (C8_getSongs_query dbC8 fC8 (by decide) (by decide)).1
  have hfilter : dbC8.rows.filter (SongRepository.matchesFilter fC8) = [songC8] :=
    by decide
  rw [h, hfilter, List.mergeSort_singleton]
  decide

/-- The state left by a fault-free insert: unchanged on a duplicate, or the
appended row. -/
theorem createSong_snd (db : DB) (now : Nat) (g t rd tx lk : String) :
    (SongRepository.CreateSong db none now g t rd tx lk).2 = db ∨
    (SongRepository.CreateSong db none now g t rd tx lk).2 =
      { rows := db.rows ++
          [{ id := db.nextId, group := g, song := t, releaseDate := rd,
             text := tx, link := lk, createdAt := now, updatedAt := now }],
        nextId := db.nextId + 1 } := by
  by_cases hdup : db.rows.any (fun s => s.group == g && s.song == t) = true
  · left
    simp [SongRepository.CreateSong, hdup]
  · right
    simp [SongRepository.CreateSong, hdup]

/-- The state left by a fault-free update: unchanged on any failure, or the
row-wise `updateRow` map. -/
theorem updateSong_snd (db : DB) (now : Nat) (u : Song) :
    (SongRepository.UpdateSong db none now u).2 = db ∨
    (SongRepository.UpdateSong db none now u).2 =
      { db with rows := db.rows.map (SongRepository.updateRow now u) } := by
  by_cases h1 : (db.rows.countP (fun r => r.id == u.id) != 0 &&
      db.rows.any (fun r => !(r.id == u.id) && r.group == u.group &&
        r.song == u.song)) = true
  · left
    simp [SongRepository.UpdateSong, h1]
  · by_cases h2 : (db.rows.countP (fun r => r.id == u.id) == 0) = true
    · left
      simp [SongRepository.UpdateSong, h1, h2]
    · right
      simp [SongRepository.UpdateSong, h1, h2]

/-- The state left by a fault-free delete: unchanged, or the filtered rows. -/
theorem deleteSong_snd (db : DB) (id : Int) :
    (SongRepository.DeleteSong db none id).2 = db ∨
    (SongRepository.DeleteSong db none id).2 =
      { db with rows := db.rows.filter (fun r => !(r.id == id)) } := by
  by_cases h2 : (db.rows.countP (fun r => r.id == id) = 0)
  · left
    simp [SongRepository.DeleteSong, h2]
  · right
    simp [SongRepository.DeleteSong, h2]

/-- Inversion of a successful update. -/
theorem updateSong_ok (db : DB) (now : Nat) (u : Song) (db' : DB)
    (h : SongRepository.UpdateSong db none now u = (.ok (), db')) :
    db' = { db with rows := db.rows.map (SongRepository.updateRow now u) } := by
  by_cases h1 : (db.rows.countP (fun r => r.id == u.id) != 0 &&
      db.rows.any (fun r => !(r.id == u.id) && r.group == u.group &&
        r.song == u.song)) = true
  · simp [SongRepository.UpdateSong, h1] at h
  · by_cases h2 : (db.rows.countP (fun r => r.id == u.id) == 0) = true
    · simp [SongRepository.UpdateSong, h1, h2] at h
    · simp [SongRepository.UpdateSong, h1, h2] at h
      exact h.symm

/-- Weakening the clock bound of `InvDB`. -/
theorem invDB_mono (db : DB) (t t' : Nat) (h : InvDB db t) (hle : t ≤ t') :
    InvDB db t' :=
  fun r hr => ⟨(h r hr).1, le_trans (h r hr).2 hle⟩

/-- A create at time `now ≥ t` preserves the timestamp invariant with the new
bound `now`. -/
theorem invDB_create (db : DB) (t now : Nat) (g tt rd tx lk : String)
    (h : InvDB db t) (hle : t ≤ now) :
    InvDB (SongRepository.CreateSong db none now g tt rd tx lk).2 now := by
  rcases createSong_snd db now g tt rd tx lk with he | he <;> rw [he]
  · exact invDB_mono db t now h hle
  · intro r hr
    rcases List.mem_append.mp hr with h1 | h2
    · exact ⟨(h r h1).1, le_trans (h r h1).2 hle⟩
    · have hr2 : r = { id := db.nextId, group := g, song := tt,
                       releaseDate := rd, text := tx, link := lk,
                       createdAt := now, updatedAt := now } := by
        simpa using h2
      subst hr2
      exact ⟨Nat.le_refl now, Nat.le_refl now⟩

/-- An update at time `now ≥ t` preserves the timestamp invariant with the
new bound `now`. -/
theorem invDB_update (db : DB) (t now : Nat) (u : Song)
    (h : InvDB db t) (hle : t ≤ now) :
    InvDB (SongRepository.UpdateSong db none now u).2 now := by
  rcases updateSong_snd db now u with he | he <;> rw [he]
  · exact invDB_mono db t now h hle
  · intro r hr
    simp only [List.mem_map] at hr
    obtain ⟨r0, hr0, hmap⟩ := hr
    subst hmap
    unfold SongRepository.updateRow
    by_cases hid : (r0.id == u.id) = true
    · rw [if_pos hid]
      exact ⟨le_trans (h r0 hr0).1 (le_trans (h r0 hr0).2 hle), Nat.le_refl now⟩
    · rw [if_neg hid]
      exact ⟨(h r0 hr0).1, le_trans (h r0 hr0).2 hle⟩

/-- A delete preserves the timestamp invariant. -/
theorem invDB_delete (db : DB) (t : Nat) (id : Int) (h : InvDB db t) :
    InvDB (SongRepository.DeleteSong db none id).2 t := by
  rcases deleteSong_snd db id with he | he <;> rw [he]
  · exact h
  · intro r hr
    exact h r (List.mem_filter.mp hr).1

/-- `timesOf` on a leading create. -/
theorem timesOf_cons_create (now : Nat) (g t rd tx lk : String) (ops : List Op) :
    timesOf (Op.createOp now g t rd tx lk :: ops) = now :: timesOf ops := rfl

/-- `timesOf` on a leading update. -/
theorem timesOf_cons_update (now : Nat) (u : Song) (ops : List Op) :
    timesOf (Op.updateOp now u :: ops) = now :: timesOf ops := rfl

/-- `timesOf` on a leading delete. -/
theorem timesOf_cons_delete (id : Int) (ops : List Op) :
    timesOf (Op.deleteOp id :: ops) = timesOf ops := rfl

/-- Pushing the timestamp invariant through a whole trace whose observed
clock values are nondecreasing. -/
theorem invDB_run (ops : List Op) (db : DB) (t : Nat) (h : InvDB db t)
    (hc : List.Chain (· ≤ ·) t (timesOf ops)) :
    ∀ r ∈ (run db ops).rows, r.createdAt ≤ r.updatedAt := by
  induction ops generalizing db t with
  | nil => exact fun r hr => (h r hr).1
  | cons op ops ih =>
    match op with
    | .createOp now g tt rd tx lk =>
      rw [timesOf_cons_create, List.chain_cons] at hc
      exact ih (SongRepository.CreateSong db none now g tt rd tx lk).2 now
        (invDB_create db t now g tt rd tx lk h hc.1) hc.2
    | .updateOp now u =>
      rw [timesOf_cons_update, List.chain_cons] at hc
      exact ih (SongRepository.UpdateSong db none now u).2 now
        (invDB_update db t now u h hc.1) hc.2
    | .deleteOp id =>
      rw [timesOf_cons_delete] at hc
      exact ih (SongRepository.DeleteSong db none id).2 t
        (invDB_delete db t id h) hc

/-- Claim C9: every successful `Create` stores the new row with
`createdAt = updatedAt` (both set to the insert-time clock); every successful
`Update` maps the rows through `updateRow`, which never touches `createdAt`
and stamps the matched row's `updatedAt` with the update-time clock; and
along every trace of operations whose observed clock values are
nondecreasing, every stored row satisfies `createdAt ≤ updatedAt`. -/
theorem C9_timestamps :
    (∀ (db : DB) (now : Nat) (g t rd tx lk : String) (id : Int) (db' : DB),
      SongRepository.CreateSong db none now g t rd tx lk = (.ok id, db') →
      db'.rows = db.rows ++
        [{ id := db.nextId, group := g, song := t, releaseDate := rd,
           text := tx, link := lk, createdAt := now, updatedAt := now }]) ∧
    (∀ (db : DB) (now : Nat) (u : Song) (db' : DB),
      SongRepository.UpdateSong db none now u = (.ok (), db') →
      db'.rows = db.rows.map (SongRepository.updateRow now u)) ∧
    (∀ (now : Nat) (u r : Song),
      (SongRepository.updateRow now u r).createdAt = r.createdAt ∧
      (r.id = u.id → (SongRepository.updateRow now u r).updatedAt = now)) ∧
    (∀ ops : List Op, List.Chain (· ≤ ·) 0 (timesOf ops) →
      ∀ r ∈ (run emptyDB ops).rows, r.createdAt ≤ r.updatedAt) := by
  refine ⟨fun db now g t rd tx lk id db' h => ?_,
    fun db now u db' h => ?_, fun now u r => ⟨?_, fun hr => ?_⟩,
    fun ops hc => invDB_run ops emptyDB 0
      (fun r hr => absurd hr (List.not_mem_nil r)) hc⟩
  · rw [(createSong_ok db now g t rd tx lk id db' h).2]
  · rw [updateSong_ok db now u db' h]
  · unfold SongRepository.updateRow
    by_cases hid : (r.id == u.id) = true
    · rw [if_pos hid]
    · rw [if_neg hid]
  · unfold SongRepository.updateRow
    simp [hr]

/-- Witness for C9 on the trace `opsC9`: create at time 5, update at time 7. -/
theorem C9_witness :
    dbC9a.rows = emptyDB.rows ++ [rowC9create] ∧
    dbC9b.rows = dbC9a.rows.map (SongRepository.updateRow 7 updC9) ∧
    ((SongRepository.updateRow 7 updC9 rowC9create).createdAt =
        rowC9create.createdAt ∧
      (rowC9create.id = updC9.id →
        (SongRepository.updateRow 7 updC9 rowC9create).updatedAt = 7)) ∧
    rowC9.createdAt ≤ rowC9.updatedAt :=
  ⟨C9_timestamps.1 emptyDB 5 "g" "t" "rd" "tx" "lk" 1 dbC9a (by decide),
   C9_timestamps.2.1 dbC9a 7 updC9 dbC9b (by decide),
   C9_timestamps.2.2.1 7 updC9 rowC9create,
   C9_timestamps.2.2.2 opsC9 (by simp [opsC9, timesOf, List.chain_cons])
     rowC9 (by decide)⟩

end SongLib
